import Mathlib

/-!
Shallow embedding of the `TextToSpeech` class from
`src/src/audio/text_to_speech.py` (repository RanjitM007/Krishna).

Pure logic (the language table, the Hinglish keyword heuristic, the
Devanagari script check, language resolution and session state updates) is
translated directly.  The external collaborators (the gTTS synthesis
service, the temporary-file store and the pygame playback engine) are
modelled by an oracle `Env` saying which external steps would succeed, and
the facade methods return, besides the boolean result the Python code
returns, a trace of the external effects (synthesis requests issued,
temporary file created/deleted, file written).  Python float comparisons
`x > len * 0.3` and `count / len > 0.2` are modelled exactly as the
rational comparisons `10 * x > 3 * len` and `5 * count > len`.
-/

set_option autoImplicit false

namespace Krishna

/-- The `supported_languages` dictionary built in `TextToSpeech.__init__`
(lines 21-70 of the source), as an association list in source order. -/
def supported_languages : List (String × String) :=
  [("en", "English"), ("es", "Spanish"), ("fr", "French"), ("de", "German"),
   ("it", "Italian"), ("pt", "Portuguese"), ("ru", "Russian"), ("ja", "Japanese"),
   ("ko", "Korean"), ("zh", "Chinese (Mandarin)"), ("ar", "Arabic"), ("hi", "Hindi"),
   ("bn", "Bengali"), ("ur", "Urdu"), ("tr", "Turkish"), ("pl", "Polish"),
   ("nl", "Dutch"), ("sv", "Swedish"), ("da", "Danish"), ("no", "Norwegian"),
   ("fi", "Finnish"), ("cs", "Czech"), ("hu", "Hungarian"), ("ro", "Romanian"),
   ("sk", "Slovak"), ("bg", "Bulgarian"), ("hr", "Croatian"), ("sr", "Serbian"),
   ("uk", "Ukrainian"), ("el", "Greek"), ("he", "Hebrew"), ("th", "Thai"),
   ("vi", "Vietnamese"), ("id", "Indonesian"), ("ms", "Malay"), ("tl", "Filipino"),
   ("sw", "Swahili"), ("af", "Afrikaans"), ("ta", "Tamil"), ("te", "Telugu"),
   ("ml", "Malayalam"), ("kn", "Kannada"), ("gu", "Gujarati"), ("pa", "Punjabi"),
   ("mr", "Marathi"), ("or", "Odia"), ("as", "Assamese"), ("ne", "Nepali")]

/-- Python `language in self.supported_languages`: key membership in the
supported-language dictionary. -/
def isSupported (code : String) : Bool :=
  supported_languages.any (fun p => p.1 = code)

/-- The `hinglish_keywords` list from `TextToSpeech.__init__`
(lines 73-80 of the source). -/
def hinglish_keywords : List String :=
  ["hai", "hain", "kar", "kya", "kaise", "kahan", "kab", "kyun", "kaun",
   "aur", "main", "hum", "tum", "aap", "yeh", "woh", "iske", "uske",
   "mera", "tera", "hamara", "tumhara", "apka", "iska", "uska",
   "karna", "hona", "jana", "aana", "lena", "dena", "dekha", "suna",
   "accha", "bura", "bada", "chota", "naya", "purana", "thik", "galat",
   "bahut", "kam", "zyada", "sab", "kuch", "koi", "sabko", "kisiko"]

/-- The mutable session state of a `TextToSpeech` instance:
`current_language`, `slow_speech` and `_audio_initialized`. -/
structure State where
  current_language : String
  slow_speech : Bool
  audio_initialized : Bool
  deriving Repr, DecidableEq

/-- The state right after `__init__`: language "en", normal speed; whether
audio playback initialised depends on the pygame mixer (oracle input). -/
def initState (audioOk : Bool) : State :=
  { current_language := "en", slow_speech := false, audio_initialized := audioOk }

/-- The whitespace characters Python `str.split()` (no separator) splits on
for ASCII input: space, tab, newline, carriage return, vertical tab, form
feed. -/
def pyIsSpace (c : Char) : Bool :=
  c == ' ' || c == '\t' || c == '\n' || c == '\r' ||
  c == Char.ofNat 11 || c == Char.ofNat 12

/-- Helper for `splitWs`: accumulates the current (reversed) token in `acc`
and emits it when a whitespace character or the end of the text is reached;
empty tokens are never emitted, matching Python `str.split()` with no
separator argument. -/
def splitWsAux : List Char → List Char → List String
  | [], acc => if acc.isEmpty then [] else [⟨acc.reverse⟩]
  | c :: cs, acc =>
    if pyIsSpace c then
      (if acc.isEmpty then [] else [⟨acc.reverse⟩]) ++ splitWsAux cs []
    else
      splitWsAux cs (c :: acc)

/-- Python `text.split()`: split on runs of whitespace, discarding empty
tokens. -/
def splitWs (cs : List Char) : List String :=
  splitWsAux cs []

/-- `TextToSpeech.detect_hinglish` (source lines 288-312): lower-case the
text, split on whitespace, count tokens belonging to `hinglish_keywords`,
and return true iff there is at least one token and the keyword fraction
strictly exceeds 0.2.  The float test `hinglish_count / len(words) > 0.2`
is modelled exactly as `5 * hinglish_count > len(words)`. -/
def detect_hinglish (text : String) : Bool :=
  let words := splitWs (text.toList.map Char.toLower)
  let hinglish_count := (words.filter (fun w => hinglish_keywords.contains w)).length
  decide (0 < words.length) && decide (words.length < 5 * hinglish_count)

/-- The Devanagari character count from `auto_detect_language` (source line
325): `sum(1 for char in text if 'ऀ' <= char <= 'ॿ')`. -/
def devanagariCount (text : String) : Nat :=
  text.toList.countP (fun c => decide (Char.ofNat 0x900 ≤ c) && decide (c ≤ Char.ofNat 0x97F))

/-- `TextToSpeech.auto_detect_language` (source lines 314-334): return "hi"
if the Devanagari character count exceeds 30% of the character count
(`devanagari_count > len(text) * 0.3`, modelled exactly as
`10 * devanagari_count > 3 * len(text)`), else "hi" if `detect_hinglish`
fires, else the session's current language. -/
def auto_detect_language (st : State) (text : String) : String :=
  if 10 * devanagariCount text > 3 * text.length then "hi"
  else if detect_hinglish text then "hi"
  else st.current_language

/-- Python `lang = language or self.current_language` (source lines 145,
163, 181): an absent argument *or a falsy one, i.e. the empty string*
falls back to the session's current language. -/
def resolveLang (st : State) : Option String → String
  | none => st.current_language
  | some l => if l = "" then st.current_language else l

/-- Python `speed = slow if slow is not None else self.slow_speech`: only
an absent argument falls back (no truthiness here). -/
def resolveSlow (st : State) : Option Bool → Bool
  | none => st.slow_speech
  | some b => b

/-- `TextToSpeech.set_language` (source lines 109-122): accept and store a
supported code, reject an unsupported one leaving the state unchanged. -/
def set_language (st : State) (language_code : String) : State × Bool :=
  if isSupported language_code then
    ({ st with current_language := language_code }, true)
  else
    (st, false)

/-- Oracle for the external collaborators: whether the gTTS constructor,
the external synthesis call (`tts.save`), temporary-file creation,
temporary-file deletion and pygame playback would succeed. -/
structure Env where
  ttsCtorOk : Bool
  synthOk : Bool
  tmpOk : Bool
  unlinkOk : Bool
  playOk : Bool
  deriving Repr, DecidableEq

/-- The environment in which every external step succeeds. -/
def allOkEnv : Env :=
  { ttsCtorOk := true, synthOk := true, tmpOk := true, unlinkOk := true, playOk := true }

/-- Result and effect trace of `_generate_and_play`: the boolean the Python
method returns, the synthesis requests issued to the external service
(text, language, slow), whether a temporary file was created, whether it
was deleted again, and whether playback happened. -/
structure PlayResult where
  ok : Bool
  synthRequests : List (String × String × Bool)
  tmpCreated : Bool
  tmpDeleted : Bool
  played : Bool
  deriving Repr, DecidableEq

/-- Result and effect trace of `_generate_audio`: the boolean result, the
synthesis requests issued, and whether the output file was written. -/
structure SaveResult where
  ok : Bool
  synthRequests : List (String × String × Bool)
  fileWritten : Bool
  deriving Repr, DecidableEq

/-- `TextToSpeech._generate_and_play` (source lines 190-226).  Control
flow: unsupported language returns False before anything external; then the
gTTS constructor, then temporary-file creation (either failing is caught by
the outer `except`, returning False); then `tts.save` inside a
`try/finally` whose `finally` deletes the temporary file, so the file is
deleted whether `tts.save` succeeds (play, return True) or raises
(propagate to the outer `except`, return False).  `_play_audio_file`
catches all its own exceptions, so playback failure never changes the
result. -/
def generate_and_play (env : Env) (st : State) (text language : String) (slow : Bool) :
    PlayResult :=
  if ¬ isSupported language then
    { ok := false, synthRequests := [], tmpCreated := false, tmpDeleted := false, played := false }
  else if ¬ env.ttsCtorOk then
    { ok := false, synthRequests := [], tmpCreated := false, tmpDeleted := false, played := false }
  else if ¬ env.tmpOk then
    { ok := false, synthRequests := [], tmpCreated := false, tmpDeleted := false, played := false }
  else if ¬ env.synthOk then
    { ok := false, synthRequests := [(text, language, slow)], tmpCreated := true,
      tmpDeleted := env.unlinkOk, played := false }
  else
    { ok := true, synthRequests := [(text, language, slow)], tmpCreated := true,
      tmpDeleted := env.unlinkOk, played := st.audio_initialized && env.playOk }

/-- `TextToSpeech._generate_audio` (source lines 228-243): unsupported
language returns False before anything external; otherwise construct the
gTTS object and synthesize straight into `filename`; every exception is
caught and turned into False. -/
def generate_audio (env : Env) (text language : String) (slow : Bool) : SaveResult :=
  if ¬ isSupported language then
    { ok := false, synthRequests := [], fileWritten := false }
  else if ¬ env.ttsCtorOk then
    { ok := false, synthRequests := [], fileWritten := false }
  else if ¬ env.synthOk then
    { ok := false, synthRequests := [(text, language, slow)], fileWritten := false }
  else
    { ok := true, synthRequests := [(text, language, slow)], fileWritten := true }

/-- `TextToSpeech.speak` (source lines 133-148): resolve language and speed
from the arguments and session defaults, then delegate to
`_generate_and_play`. -/
def speak (env : Env) (st : State) (text : String) (language : Option String)
    (slow : Option Bool) : PlayResult :=
  generate_and_play env st text (resolveLang st language) (resolveSlow st slow)

/-- `TextToSpeech.save` (source lines 150-166): resolve language and speed,
then delegate to `_generate_audio`. -/
def save (env : Env) (st : State) (text _filename : String) (language : Option String)
    (slow : Option Bool) : SaveResult :=
  generate_audio env text (resolveLang st language) (resolveSlow st slow)

/-- `TextToSpeech.speak_and_save` (source lines 168-188): generate into the
named file; on success optionally play it (playback failures are swallowed
by `_play_audio_file`) and return True, else return False. -/
def speak_and_save (env : Env) (st : State) (text _filename : String)
    (language : Option String) (slow : Option Bool) : SaveResult :=
  generate_audio env text (resolveLang st language) (resolveSlow st slow)

/-- `TextToSpeech.speak_hinglish` (source lines 336-353): pick the language
with `auto_detect_language` when `auto_detect` is set, else force "hi",
then delegate to `speak`. -/
def speak_hinglish (env : Env) (st : State) (text : String) (slow : Bool)
    (auto_detect : Bool) : PlayResult :=
  let lang := if auto_detect then auto_detect_language st text else "hi"
  speak env st text (some lang) (some slow)

/-- The caller-facing operations that touch the session state, for stating
state invariants across whole call sequences. -/
inductive Op where
  | opSetLanguage (code : String)
  | opSetSpeed (slow : Bool)
  | opSpeak (env : Env) (text : String) (language : Option String) (slow : Option Bool)
  | opSave (env : Env) (text filename : String) (language : Option String) (slow : Option Bool)
  | opSpeakAndSave (env : Env) (text filename : String) (language : Option String)
      (slow : Option Bool)
  | opSpeakHinglish (env : Env) (text : String) (slow : Bool) (autoDetect : Bool)
  | opStop

/-- One caller-facing call: the state afterwards and the boolean returned
(`set_speed` and `stop` return None in Python; modelled as true). -/
def step (st : State) : Op → State × Bool
  | Op.opSetLanguage code => set_language st code
  | Op.opSetSpeed slow => ({ st with slow_speech := slow }, true)
  | Op.opSpeak env text language slow => (st, (speak env st text language slow).ok)
  | Op.opSave env text filename language slow => (st, (save env st text filename language slow).ok)
  | Op.opSpeakAndSave env text filename language slow =>
      (st, (speak_and_save env st text filename language slow).ok)
  | Op.opSpeakHinglish env text slow autoDetect =>
      (st, (speak_hinglish env st text slow autoDetect).ok)
  | Op.opStop => (st, true)

/-! ### A small mutable-dictionary heap, for the aliasing behaviour of
`get_supported_languages` (source lines 96-98, `return
self.supported_languages.copy()`).  Dictionaries live in numbered heap
cells; the `TextToSpeech` instance holds a reference to the cell storing
`supported_languages`, and the caller may mutate any cell it holds a
reference to. -/

/-- A heap of dictionaries: cell contents indexed by reference, plus the
next fresh reference. -/
structure DictHeap where
  cells : Nat → List (String × String)
  next : Nat

/-- Allocate a fresh dictionary holding `contents`; returns the new heap
and the fresh reference. -/
def allocDict (h : DictHeap) (contents : List (String × String)) : DictHeap × Nat :=
  ({ cells := fun i => if i = h.next then contents else h.cells i, next := h.next + 1 },
   h.next)

/-- Overwrite the dictionary in cell `r` (an arbitrary caller mutation of a
dictionary it holds — insertion, deletion, clearing — is a special case). -/
def mutateDict (h : DictHeap) (r : Nat) (contents : List (String × String)) : DictHeap :=
  { cells := fun i => if i = r then contents else h.cells i, next := h.next }

/-- Apply a sequence of caller mutations, all aimed at reference `r`. -/
def applyMutations (h : DictHeap) (r : Nat) (ms : List (List (String × String))) : DictHeap :=
  ms.foldl (fun hp m => mutateDict hp r m) h

/-- `TextToSpeech.get_supported_languages` (source lines 96-98): return
`self.supported_languages.copy()` — a freshly allocated dictionary with the
same contents, not the instance's own dictionary. -/
def get_supported_languages (h : DictHeap) (tableRef : Nat) : DictHeap × Nat :=
  allocDict h (h.cells tableRef)

/-- The key-membership test `language_code in self.supported_languages`
performed by `set_language` / `_generate_audio` / `_generate_and_play`,
reading the instance's dictionary from the heap. -/
def validateLang (h : DictHeap) (r : Nat) (code : String) : Bool :=
  (h.cells r).any (fun p => p.1 = code)

theorem applyMutations_cells_ne (r i : Nat) (hne : i ≠ r)
    (ms : List (List (String × String))) (h : DictHeap) :
    (applyMutations h r ms).cells i = h.cells i := by
  induction ms generalizing h with
  | nil => rfl
  | cons m ms ih =>
    have hstep : applyMutations h r (m :: ms) = applyMutations (mutateDict h r m) r ms := rfl
    rw [hstep, ih (mutateDict h r m)]
    simp [mutateDict, hne]

/-! ### Helper lemmas -/

theorem toLower_of_pyIsSpace (c : Char) (h : pyIsSpace c = true) : Char.toLower c = c := by
  simp only [pyIsSpace, Bool.or_eq_true, beq_iff_eq] at h
  rcases h with ((((h | h) | h) | h) | h) | h <;> subst h <;> decide

theorem pyIsSpace_not_devanagari (c : Char) (h : pyIsSpace c = true) :
    (decide (Char.ofNat 0x900 ≤ c) && decide (c ≤ Char.ofNat 0x97F)) = false := by
  simp only [pyIsSpace, Bool.or_eq_true, beq_iff_eq] at h
  rcases h with ((((h | h) | h) | h) | h) | h <;> subst h <;> decide

theorem splitWsAux_all_space (cs : List Char) (h : ∀ c ∈ cs, pyIsSpace c = true) :
    splitWsAux cs [] = [] := by
  induction cs with
  | nil => rfl
  | cons c cs ih =>
    have hc : pyIsSpace c = true := h c (List.mem_cons_self c cs)
    simp [splitWsAux, hc, ih fun x hx => h x (List.mem_cons_of_mem c hx)]

theorem splitWs_all_space (cs : List Char) (h : ∀ c ∈ cs, pyIsSpace c = true) :
    splitWs cs = [] :=
  splitWsAux_all_space cs h

theorem devanagariCount_all_space (text : String)
    (h : ∀ c ∈ text.toList, pyIsSpace c = true) : devanagariCount text = 0 := by
  rw [devanagariCount, List.countP_eq_zero]
  intro c hc
  simp [pyIsSpace_not_devanagari c (h c hc)]

theorem ratio_gt_fifth_iff (k n : Nat) (hn : 0 < n) :
    ((1 : ℚ)/5 < (k : ℚ) / (n : ℚ)) ↔ n < 5 * k := by
  rw [div_lt_div_iff₀ (by norm_num) (by exact_mod_cast hn)]
  constructor
  · intro h
    have : (n : ℚ) < 5 * k := by linarith
    exact_mod_cast this
  · intro h
    have : (n : ℚ) < 5 * k := by exact_mod_cast h
    linarith

/-! ### Claim theorems -/

/-- Claim C1: `auto_detect_language` follows a first-match-wins decision
order.  When the Devanagari fraction test (`10 * count > 3 * length`, i.e.
the fraction exceeds 30%) fires it returns "hi" regardless of
`detect_hinglish` (the lexical heuristic is short-circuited); otherwise a
positive `detect_hinglish` returns "hi"; otherwise the fallback — the
session's current default language — is returned unchanged. -/
theorem auto_detect_language_first_match_order (st : State) (text : String) :
    (10 * devanagariCount text > 3 * text.length →
      auto_detect_language st text = "hi") ∧
    (¬ (10 * devanagariCount text > 3 * text.length) →
      detect_hinglish text = true → auto_detect_language st text = "hi") ∧
    (¬ (10 * devanagariCount text > 3 * text.length) →
      detect_hinglish text = false →
      auto_detect_language st text = st.current_language) := by
  refine ⟨fun h => ?_, fun h hh => ?_, fun h hh => ?_⟩
  · simp [auto_detect_language, h]
  · simp [auto_detect_language, h, hh]
  · simp [auto_detect_language, h, hh]

/-- Witness for C1: applies the third branch of the order to
"Hello world" (no Devanagari, no Hinglish keywords) and the session
default "en". -/
theorem auto_detect_language_first_match_order_witness :
    auto_detect_language (initState true) "Hello world" = "en" :=
  (auto_detect_language_first_match_order (initState true) "Hello world").2.2
    (by decide) (by decide)

/-- Counterexample to claim C2: the text "कखगabcdefg" has exactly 30%
Devanagari characters (3 of 10), which meets the claim's "at least 30%"
bound, yet `auto_detect_language` uses a strict comparison
(`devanagari_count > len(text) * 0.3`) and returns the fallback "en", not
"hi". -/
theorem auto_detect_exact_thirty_percent_counterexample :
    10 * devanagariCount "कखगabcdefg" = 3 * ("कखगabcdefg".length) ∧
    auto_detect_language (initState true) "कखगabcdefg" = "en" ∧
    auto_detect_language (initState true) "कखगabcdefg" ≠ "hi" := by
  refine ⟨by decide, by decide, by decide⟩

/-- Claim C2 as amended: for every text whose Devanagari character count
is *strictly* more than 30% of the total character count,
`auto_detect_language` returns "hi" regardless of lexical content. -/
theorem auto_detect_strict_thirty_percent (st : State) (text : String)
    (h : 10 * devanagariCount text > 3 * text.length) :
    auto_detect_language st text = "hi" := by
  simp [auto_detect_language, h]

/-- Witness for the amended C2: "नमस्ते" is 100% Devanagari, so the strict
30% test holds and detection returns "hi". -/
theorem auto_detect_strict_thirty_percent_witness :
    auto_detect_language (initState true) "नमस्ते" = "hi" :=
  auto_detect_strict_thirty_percent (initState true) "नमस्ते" (by decide)

/-- Claim C3: `detect_hinglish` lower-cases, splits on whitespace, counts
exact keyword matches, and is true iff the keyword fraction of the tokens
strictly exceeds 0.20 (stated with exact rational arithmetic); zero tokens
give false; the boundary text "hai dog cat bird tree" (1 keyword in 5
tokens, ratio exactly 0.20) gives false, and `auto_detect_language` then
returns the session's current language, not "hi". -/
theorem detect_hinglish_ratio_characterisation (text : String) :
    (detect_hinglish text = true ↔
      0 < (splitWs (text.toList.map Char.toLower)).length ∧
      (1 : ℚ)/5 <
        (((splitWs (text.toList.map Char.toLower)).filter
            (fun w => hinglish_keywords.contains w)).length : ℚ) /
          ((splitWs (text.toList.map Char.toLower)).length : ℚ)) ∧
    detect_hinglish "" = false ∧
    detect_hinglish "hai dog cat bird tree" = false ∧
    (∀ st : State,
      auto_detect_language st "hai dog cat bird tree" = st.current_language) := by
  refine ⟨?_, by decide, by decide, fun st => rfl⟩
  simp only [detect_hinglish, Bool.and_eq_true, decide_eq_true_eq]
  constructor
  · rintro ⟨hn, hk⟩
    exact ⟨hn, (ratio_gt_fifth_iff _ _ hn).2 hk⟩
  · rintro ⟨hn, hk⟩
    exact ⟨hn, (ratio_gt_fifth_iff _ _ hn).1 hk⟩

/-- Counterexample to claim C4: the empty string is not a key of the
supported-language table, yet `save(text, path, "")` does not fail —
because of Python's `language or self.current_language` truthiness, the
empty code is silently replaced by the session default "en", the external
synthesis service is called and the output file is created. -/
theorem save_empty_code_counterexample :
    isSupported "" = false ∧
    save allOkEnv (initState true) "hello" "out.mp3" (some "") none =
      { ok := true, synthRequests := [("hello", "en", false)], fileWritten := true } := by
  refine ⟨by decide, by decide⟩

/-- Claim C4 as amended: for every *non-empty* language code not in the
supported-language table, `save` and `speak` return false, issue no
synthesis request, create no output file and no temporary file — the
table check precedes any external call.  (An empty-string code is instead
treated as "no code supplied" and falls back to the session default.) -/
theorem unsupported_code_rejected (env : Env) (st : State) (text filename code : String)
    (slow : Option Bool) (hne : code ≠ "") (hc : isSupported code = false) :
    save env st text filename (some code) slow =
      { ok := false, synthRequests := [], fileWritten := false } ∧
    speak env st text (some code) slow =
      { ok := false, synthRequests := [], tmpCreated := false, tmpDeleted := false,
        played := false } := by
  have hr : resolveLang st (some code) = code := by simp [resolveLang, hne]
  constructor
  · simp [save, generate_audio, hr, hc]
  · simp [speak, generate_and_play, hr, hc]

/-- Witness for the amended C4: the unsupported code "xx" is rejected by
both `save` and `speak` with no external effects. -/
theorem unsupported_code_rejected_witness :
    ("xx" ≠ "") ∧ isSupported "xx" = false ∧
    (save allOkEnv (initState true) "hello" "out.mp3" (some "xx") none =
       { ok := false, synthRequests := [], fileWritten := false } ∧
     speak allOkEnv (initState true) "hello" (some "xx") none =
       { ok := false, synthRequests := [], tmpCreated := false, tmpDeleted := false,
         played := false }) :=
  ⟨by decide, by decide,
   unsupported_code_rejected allOkEnv (initState true) "hello" "out.mp3" "xx" none
     (by decide) (by decide)⟩

/-- Counterexample to claim C5: the empty string is not a key of the
supported-language table, yet `speak(text, "")` does not fail — the code
`language or self.current_language` silently substitutes the session
default "en" for it, and synthesis proceeds with "en". -/
theorem speak_empty_code_substitution_counterexample :
    isSupported "" = false ∧
    resolveLang (initState true) (some "") = "en" ∧
    (speak allOkEnv (initState true) "namaste" (some "") none).ok = true ∧
    (speak allOkEnv (initState true) "namaste" (some "") none).synthRequests =
      [("namaste", "en", false)] := by
  refine ⟨by decide, by decide, by decide, by decide⟩

/-- Claim C5 as amended: (i) `set_language` accepts exactly the table keys,
updating the default on success and leaving it unchanged on failure;
(ii) a *non-empty* code outside the table is never silently substituted —
`speak` fails with no synthesis request (the empty string is treated as
"no code supplied" and falls back to the session default); (iii) the
session default stays a table key across every operation; (iv) every
language code that reaches the synthesis service is a table key. -/
theorem language_table_invariant :
    (∀ (st : State) (c : String),
      (isSupported c = true → set_language st c = ({ st with current_language := c }, true)) ∧
      (isSupported c = false → set_language st c = (st, false))) ∧
    (∀ (env : Env) (st : State) (text c : String) (slow : Option Bool),
      c ≠ "" → isSupported c = false →
      (speak env st text (some c) slow).ok = false ∧
      (speak env st text (some c) slow).synthRequests = []) ∧
    (∀ (st : State) (op : Op),
      isSupported st.current_language = true →
      isSupported ((step st op).1).current_language = true) ∧
    (∀ (env : Env) (st : State) (text lang : String) (slow : Bool)
       (r : String × String × Bool),
      r ∈ (generate_and_play env st text lang slow).synthRequests →
      isSupported r.2.1 = true) := by
  refine ⟨fun st c => ⟨fun h => ?_, fun h => ?_⟩, fun env st text c slow hne hc => ?_,
    fun st op h => ?_, fun env st text lang slow r hr => ?_⟩
  · simp [set_language, h]
  · simp [set_language, h]
  · have hr : resolveLang st (some c) = c := by simp [resolveLang, hne]
    constructor <;> simp [speak, generate_and_play, hr, hc]
  · cases op with
    | opSetLanguage c =>
      by_cases hc : isSupported c = true
      · simp [step, set_language, hc]
      · simp only [Bool.not_eq_true] at hc
        simpa [step, set_language, hc] using h
    | opSetSpeed slow => simpa [step] using h
    | opSpeak env text language slow => simpa [step] using h
    | opSave env text filename language slow => simpa [step] using h
    | opSpeakAndSave env text filename language slow => simpa [step] using h
    | opSpeakHinglish env text slow autoDetect => simpa [step] using h
    | opStop => simpa [step] using h
  · rw [generate_and_play] at hr
    split_ifs at hr <;> simp_all

/-- Witness for the amended C5: supported "fr" is accepted by
`set_language` from the freshly initialised state, and the session default
stays a table key. -/
theorem language_table_invariant_witness :
    isSupported (initState true).current_language = true ∧
    isSupported ((step (initState true) (Op.opSetLanguage "fr")).1).current_language = true :=
  ⟨by decide,
   language_table_invariant.2.2.1 (initState true) (Op.opSetLanguage "fr") (by decide)⟩

/-- Claim C6: the language-detection functions are total Lean functions
(no exception, no division-by-zero: the zero-token and zero-length cases
are guarded in the source), and on empty or whitespace-only text the
script check and `detect_hinglish` both yield false while
`auto_detect_language` degrades to the fallback — the session's current
language — unchanged.  The empty string satisfies the hypothesis
vacuously. -/
theorem detection_total_on_degenerate_text (st : State) (text : String)
    (hws : ∀ c ∈ text.toList, pyIsSpace c = true) :
    detect_hinglish text = false ∧
    devanagariCount text = 0 ∧
    ¬ (10 * devanagariCount text > 3 * text.length) ∧
    auto_detect_language st text = st.current_language := by
  have hlower : ∀ c ∈ text.toList.map Char.toLower, pyIsSpace c = true := by
    intro c hc
    rcases List.mem_map.1 hc with ⟨c0, hc0, rfl⟩
    rw [toLower_of_pyIsSpace c0 (hws c0 hc0)]
    exact hws c0 hc0
  have hsplit : splitWs (List.map Char.toLower text.data) = [] :=
    splitWs_all_space _ hlower
  have hdh : detect_hinglish text = false := by
    simp [detect_hinglish, hsplit]
  have hdc : devanagariCount text = 0 := devanagariCount_all_space text hws
  refine ⟨hdh, hdc, ?_, ?_⟩
  · rw [hdc]
    omega
  · rw [auto_detect_language, hdc, hdh]
    simp

/-- Witness for C6: the whitespace-only text " " (and with it the empty
string handled by the same theorem) detects nothing and degrades to the
fallback "en". -/
theorem detection_total_on_degenerate_text_witness :
    detect_hinglish " " = false ∧
    devanagariCount " " = 0 ∧
    ¬ (10 * devanagariCount " " > 3 * (" " : String).length) ∧
    auto_detect_language (initState true) " " = "en" :=
  detection_total_on_degenerate_text (initState true) " " (by decide)

/-- Claim C7: the language router is consulted exactly on auto-routed
calls.  `speak_hinglish` with `auto_detect` set synthesises with the
language chosen by `auto_detect_language`; `speak` with an explicit
non-empty code uses that code verbatim, and with no code uses the session
default verbatim; and the language `speak`/`save` synthesise with never
depends on the text, so the router is never invoked for explicit-language
requests. -/
theorem router_only_on_auto_routed_calls :
    (∀ (env : Env) (st : State) (text : String) (slow : Bool),
      isSupported st.current_language = true →
      speak_hinglish env st text slow true =
        generate_and_play env st text (auto_detect_language st text) slow) ∧
    (∀ (env : Env) (st : State) (text code : String) (slow : Option Bool), code ≠ "" →
      speak env st text (some code) slow =
        generate_and_play env st text code (resolveSlow st slow)) ∧
    (∀ (env : Env) (st : State) (text : String) (slow : Option Bool),
      speak env st text none slow =
        generate_and_play env st text st.current_language (resolveSlow st slow)) ∧
    (∀ (env : Env) (st : State) (t1 t2 f1 f2 : String) (language : Option String)
       (slow : Option Bool),
      (speak env st t1 language slow).synthRequests.map (fun r => r.2.1) =
        (speak env st t2 language slow).synthRequests.map (fun r => r.2.1) ∧
      (save env st t1 f1 language slow).synthRequests.map (fun r => r.2.1) =
        (save env st t2 f2 language slow).synthRequests.map (fun r => r.2.1)) := by
  refine ⟨fun env st text slow hsup => ?_, fun env st text code slow hne => ?_,
    fun env st text slow => ?_, fun env st t1 t2 f1 f2 language slow => ⟨?_, ?_⟩⟩
  · have hauto : auto_detect_language st text ≠ "" := by
      rw [auto_detect_language]
      split
      · decide
      · split
        · decide
        · intro h
          rw [h] at hsup
          exact absurd hsup (by decide)
    simp [speak_hinglish, speak, resolveLang, resolveSlow, hauto]
  · simp [speak, resolveLang, hne]
  · simp [speak, resolveLang]
  · rw [speak, speak, generate_and_play, generate_and_play]
    split_ifs <;> simp
  · rw [save, save, generate_audio, generate_audio]
    split_ifs <;> simp

/-- Witness for C7: on the pure-keyword Hinglish text, `speak_hinglish`
with auto-detection routes through `auto_detect_language` (which picks
"hi"). -/
theorem router_only_on_auto_routed_calls_witness :
    isSupported (initState true).current_language = true ∧
    speak_hinglish allOkEnv (initState true) "hai kya tum aur main" false true =
      generate_and_play allOkEnv (initState true) "hai kya tum aur main"
        (auto_detect_language (initState true) "hai kya tum aur main") false :=
  ⟨by decide,
   router_only_on_auto_routed_calls.1 allOkEnv (initState true) "hai kya tum aur main" false
     (by decide)⟩

/-- Claim C8: the facade converts every internal failure into a boolean.
`speak`, `save` and `speak_and_save` are total functions returning a
boolean (no exception escapes: the Python bodies are wrapped in
`try/except` returning False), they leave the session state — default
language and speed flag — unchanged, subsequent calls behave exactly as
before the failing call, and the boolean is false when the synthesis
service fails and true when the language is valid and every external step
succeeds. -/
theorem facade_failures_become_booleans :
    (∀ (st : State) (env : Env) (text filename : String) (language : Option String)
       (slow : Option Bool) (op2 : Op),
      (step st (Op.opSpeak env text language slow)).1 = st ∧
      (step st (Op.opSave env text filename language slow)).1 = st ∧
      (step st (Op.opSpeakAndSave env text filename language slow)).1 = st ∧
      step (step st (Op.opSpeak env text language slow)).1 op2 = step st op2) ∧
    (∀ (env : Env) (st : State) (text : String) (language : Option String)
       (slow : Option Bool),
      env.synthOk = false → (speak env st text language slow).ok = false) ∧
    (∀ (env : Env) (st : State) (text : String) (language : Option String)
       (slow : Option Bool),
      env.ttsCtorOk = true → env.tmpOk = true → env.synthOk = true →
      isSupported (resolveLang st language) = true →
      (speak env st text language slow).ok = true) := by
  refine ⟨fun st env text filename language slow op2 => ⟨rfl, rfl, rfl, rfl⟩,
    fun env st text language slow hs => ?_, fun env st text language slow h1 h2 h3 h4 => ?_⟩
  · rw [speak, generate_and_play]
    split_ifs
    all_goals simp_all
  · rw [speak, generate_and_play]
    split_ifs
    all_goals simp_all

/-- Witness for C8: a failing synthesis service makes `speak` return
false, and with everything healthy `speak` returns true; both applied at
the initial state. -/
theorem facade_failures_become_booleans_witness :
    ({ allOkEnv with synthOk := false } : Env).synthOk = false ∧
    (speak { allOkEnv with synthOk := false } (initState true) "hello" none none).ok = false ∧
    (speak allOkEnv (initState true) "hello" (some "fr") none).ok = true :=
  ⟨rfl,
   facade_failures_become_booleans.2.1 { allOkEnv with synthOk := false }
     (initState true) "hello" none none rfl,
   facade_failures_become_booleans.2.2 allOkEnv (initState true) "hello" (some "fr") none
     rfl rfl rfl (by decide)⟩

/-- Claim C9: whenever the delete operation itself works, `speak` deletes
its temporary audio file on every exit path — the `finally` block runs
whether `tts.save` succeeded (playback done or skipped for uninitialised
audio) or raised — so a temporary file is left behind exactly never:
`tmpDeleted` equals `tmpCreated` across all environments and states. -/
theorem speak_temp_file_always_deleted (env : Env) (st : State) (text : String)
    (language : Option String) (slow : Option Bool) (hunlink : env.unlinkOk = true) :
    (speak env st text language slow).tmpDeleted =
      (speak env st text language slow).tmpCreated := by
  rw [speak, generate_and_play]
  split_ifs <;> simp [hunlink]

/-- Witness for C9: with a healthy environment, the temporary file `speak`
creates for playback is deleted again. -/
theorem speak_temp_file_always_deleted_witness :
    allOkEnv.unlinkOk = true ∧
    (speak allOkEnv (initState true) "hello" none none).tmpDeleted =
      (speak allOkEnv (initState true) "hello" none none).tmpCreated :=
  ⟨rfl, speak_temp_file_always_deleted allOkEnv (initState true) "hello" none none rfl⟩

/-- Claim C10: `get_supported_languages` hands out a *copy* of the
supported-language table: the returned reference is distinct from the
instance's own, any sequence of mutations through the returned reference
leaves the instance's dictionary untouched, and the key-membership
validation used by `set_language` / `speak` / `save` is unaffected — in
particular it still agrees with `isSupported` when the instance holds the
source table. -/
theorem get_supported_languages_returns_copy (h : DictHeap) (tableRef : Nat)
    (code : String) (ms : List (List (String × String))) (hv : tableRef < h.next) :
    (get_supported_languages h tableRef).2 ≠ tableRef ∧
    (applyMutations (get_supported_languages h tableRef).1
        (get_supported_languages h tableRef).2 ms).cells tableRef = h.cells tableRef ∧
    validateLang (applyMutations (get_supported_languages h tableRef).1
        (get_supported_languages h tableRef).2 ms) tableRef code =
      validateLang h tableRef code ∧
    (h.cells tableRef = supported_languages →
      validateLang (applyMutations (get_supported_languages h tableRef).1
          (get_supported_languages h tableRef).2 ms) tableRef code = isSupported code) := by
  have hne : tableRef ≠ (get_supported_languages h tableRef).2 := by
    rw [get_supported_languages, allocDict]
    omega
  have hcells : (applyMutations (get_supported_languages h tableRef).1
      (get_supported_languages h tableRef).2 ms).cells tableRef = h.cells tableRef := by
    rw [applyMutations_cells_ne _ _ hne]
    rw [get_supported_languages, allocDict]
    simp only []
    rw [if_neg (by omega)]
  refine ⟨fun hcontra => hne hcontra.symm, hcells, ?_, fun htab => ?_⟩
  · rw [validateLang, validateLang, hcells]
  · rw [validateLang, hcells, htab]
    rfl

/-- Witness for C10: a one-cell heap holding the source table at reference
0; after copying and then overwriting the copy with a fake entry "xx", the
instance's table still rejects "xx" exactly as `isSupported` does. -/
theorem get_supported_languages_returns_copy_witness :
    (0 : Nat) < (DictHeap.mk (fun i => if i = 0 then supported_languages else []) 1).next ∧
    ((get_supported_languages
        (DictHeap.mk (fun i => if i = 0 then supported_languages else []) 1) 0).2 ≠ 0 ∧
     (applyMutations (get_supported_languages
          (DictHeap.mk (fun i => if i = 0 then supported_languages else []) 1) 0).1
        (get_supported_languages
          (DictHeap.mk (fun i => if i = 0 then supported_languages else []) 1) 0).2
        [[("xx", "Fake")]]).cells 0 =
       (DictHeap.mk (fun i => if i = 0 then supported_languages else []) 1).cells 0 ∧
     validateLang (applyMutations (get_supported_languages
          (DictHeap.mk (fun i => if i = 0 then supported_languages else []) 1) 0).1
        (get_supported_languages
          (DictHeap.mk (fun i => if i = 0 then supported_languages else []) 1) 0).2
        [[("xx", "Fake")]]) 0 "xx" =
       validateLang (DictHeap.mk (fun i => if i = 0 then supported_languages else []) 1) 0 "xx" ∧
     ((DictHeap.mk (fun i => if i = 0 then supported_languages else []) 1).cells 0 =
        supported_languages →
      validateLang (applyMutations (get_supported_languages
           (DictHeap.mk (fun i => if i = 0 then supported_languages else []) 1) 0).1
         (get_supported_languages
           (DictHeap.mk (fun i => if i = 0 then supported_languages else []) 1) 0).2
         [[("xx", "Fake")]]) 0 "xx" = isSupported "xx")) :=
  ⟨Nat.zero_lt_one,
   get_supported_languages_returns_copy
     (DictHeap.mk (fun i => if i = 0 then supported_languages else []) 1) 0 "xx"
     [[("xx", "Fake")]] Nat.zero_lt_one⟩

end Krishna
